import Mathlib

/-!
Shallow embedding of the graph-matching-network core from
`src/src/utils/gmn.py` (IBCNServices/KGEmbeddingBenchmark).

Tensors are embedded as lists of rows, a row being a `List ℚ` of feature
values (machine floats are modelled by exact rationals).  Learned neural
modules (MLPs, GRU cells, layer norm) are opaque parameters: they enter the
definitions as plain Lean functions, exactly where the source calls the
corresponding sonnet module.  Functions of the source that have no closed
rational form (`exp` inside softmax/sigmoid, `sqrt` inside cosine
normalization and the `sqrt_n` reduction) are likewise abstracted as
function parameters, keeping every definition executable.
-/

namespace GMN

/-- Row of feature values: one row of a `[n, d]` float tensor. -/
abbrev Row := List ℚ

/-- Tensor of shape `[n, d]`: a list of `n` rows. -/
abbrev Tensor := List Row

/-- Elementwise sum of two rows (tensor `+` on rows of equal length). -/
def radd (u v : Row) : Row := List.zipWith (· + ·) u v

/-- Elementwise difference of two rows (tensor `-` on rows). -/
def rsub (u v : Row) : Row := List.zipWith (· - ·) u v

/-- Elementwise max of two rows. -/
def rmax (u v : Row) : Row := List.zipWith max u v

/-- Dot product of two rows (`tf.reduce_sum(u * v)` for equal-length rows). -/
def rdot (u v : Row) : ℚ := (List.zipWith (· * ·) u v).sum

/-- All-zero row of the given width. -/
def rzeros (dim : ℕ) : Row := List.replicate dim 0

/-- Most negative finite float32, the value `tf.unsorted_segment_max`
assigns to empty segments.  Exactly `-(2^128 - 2^104)`, spelled as a
numeral so that it evaluates. -/
def float32_lowest : ℚ := -340282346638528859811704183484516925440

/-- Rows of `data` belonging to segment `i`, in order (`segment_ids` pairs
each row with its segment). -/
def segmentRows (data : Tensor) (segment_ids : List ℕ) (i : ℕ) : Tensor :=
  ((data.zip segment_ids).filter (fun p => p.2 == i)).map Prod.fst

/-- Embedding of `tf.unsorted_segment_sum(data, segment_ids, num)`:
row `i` of the result is the sum of the rows of `data` whose segment id is
`i`; an empty segment yields the zero row.  `dim` is the static width of
the rows of `data` (the last dimension of the tensor). -/
def unsorted_segment_sum (dim : ℕ) (data : Tensor) (segment_ids : List ℕ)
    (num : ℕ) : Tensor :=
  (List.range num).map (fun i =>
    (segmentRows data segment_ids i).foldl radd (rzeros dim))

/-- Embedding of `tf.unsorted_segment_mean`: segment sum divided by the
segment size (division by the empty count 0 is 0 over ℚ). -/
def unsorted_segment_mean (dim : ℕ) (data : Tensor) (segment_ids : List ℕ)
    (num : ℕ) : Tensor :=
  (List.range num).map (fun i =>
    let seg := segmentRows data segment_ids i
    (seg.foldl radd (rzeros dim)).map (fun v => v / (seg.length : ℚ)))

/-- Embedding of `tf.unsorted_segment_sqrt_n`: segment sum divided by the
square root of the segment size.  The real square root has no rational
form, so it is abstracted as the parameter `sqrtN : ℕ → ℚ`. -/
def unsorted_segment_sqrt_n (sqrtN : ℕ → ℚ) (dim : ℕ) (data : Tensor)
    (segment_ids : List ℕ) (num : ℕ) : Tensor :=
  (List.range num).map (fun i =>
    let seg := segmentRows data segment_ids i
    (seg.foldl radd (rzeros dim)).map (fun v => v / sqrtN seg.length))

/-- Embedding of `tf.unsorted_segment_max`: componentwise max over each
segment, starting from the float32 lowest value, which is therefore the
result on empty segments — exactly the sentinel behavior the source's
`GraphAggregator._build` corrects for. -/
def unsorted_segment_max (dim : ℕ) (data : Tensor) (segment_ids : List ℕ)
    (num : ℕ) : Tensor :=
  (List.range num).map (fun i =>
    (segmentRows data segment_ids i).foldl rmax
      (List.replicate dim float32_lowest))

/-- Embedding of `tf.nn.relu`. -/
def relu (x : ℚ) : ℚ := max x 0

/-- Embedding of `euclidean_distance` (gmn.py line 975): the SQUARED
Euclidean distance `tf.reduce_sum((x - y) ** 2)`, for one row of the
batch. -/
def euclidean_distance (x y : Row) : ℚ :=
  (List.zipWith (fun a b => (a - b) ^ 2) x y).sum

/-- Embedding of `approximate_hamming_similarity` (gmn.py line 980):
`tf.reduce_mean(tanh(x) * tanh(y))` for one row of the batch; `tanh` is
abstracted as a function parameter. -/
def approximate_hamming_similarity (tanh : ℚ → ℚ) (x y : Row) : ℚ :=
  (List.zipWith (fun a b => tanh a * tanh b) x y).sum
    / ((List.zipWith (fun a b => tanh a * tanh b) x y).length : ℚ)

/-- Embedding of `pairwise_loss` (gmn.py line 985) for one row of the
batch: margin loss `relu(margin - labels * (1 - d(x,y)))` or Hamming loss
`0.25 * (labels - s(x,y))^2`, unknown `loss_type` raises. -/
def pairwise_loss (tanh : ℚ → ℚ) (x y : Row) (label : ℚ)
    (loss_type : String) (margin : ℚ) : Except String ℚ :=
  if loss_type = "margin" then
    Except.ok (relu (margin - label * (1 - euclidean_distance x y)))
  else if loss_type = "hamming" then
    Except.ok ((25 / 100) * (label - approximate_hamming_similarity tanh x y) ^ 2)
  else
    Except.error ("Unknown loss_type " ++ loss_type)

/-- Embedding of `triplet_loss` (gmn.py line 1030) for one row of the
batch: margin loss `relu(margin + d(x_1,y) - d(x_2,z))` or Hamming loss
`0.125 * ((s(x_1,y) - 1)^2 + (s(x_2,z) + 1)^2)`. -/
def triplet_loss (tanh : ℚ → ℚ) (x_1 y x_2 z : Row)
    (loss_type : String) (margin : ℚ) : Except String ℚ :=
  if loss_type = "margin" then
    Except.ok (relu (margin + euclidean_distance x_1 y
      - euclidean_distance x_2 z))
  else if loss_type = "hamming" then
    Except.ok ((125 / 1000) *
      ((approximate_hamming_similarity tanh x_1 y - 1) ^ 2 +
       (approximate_hamming_similarity tanh x_2 z + 1) ^ 2))
  else
    Except.error ("Unknown loss_type " ++ loss_type)

/-- Embedding of `pairwise_euclidean_similarity` (gmn.py line 649):
`2 * x yᵀ - diag(x xᵀ) - diag(y yᵀ)`, written entrywise. -/
def pairwise_euclidean_similarity (x y : Tensor) : Tensor :=
  x.map (fun u => y.map (fun v => 2 * rdot u v - rdot u u - rdot v v))

/-- Embedding of `pairwise_dot_product_similarity` (gmn.py line 668). -/
def pairwise_dot_product_similarity (x y : Tensor) : Tensor :=
  x.map (fun u => y.map (fun v => rdot u v))

/-- Embedding of `tf.nn.l2_normalize(v, axis=-1)`:
`v / sqrt(max(sum(v^2), epsilon))` with `epsilon = 1e-12`; the square root
is abstracted as the parameter `sqrt`. -/
def l2_normalize (sqrt : ℚ → ℚ) (v : Row) : Row :=
  v.map (fun t => t / sqrt (max (rdot v v) (1 / 10 ^ 12)))

/-- Embedding of `pairwise_cosine_similarity` (gmn.py line 684): l2
normalize both sides, then dot products. -/
def pairwise_cosine_similarity (sqrt : ℚ → ℚ) (x y : Tensor) : Tensor :=
  pairwise_dot_product_similarity (x.map (l2_normalize sqrt))
    (y.map (l2_normalize sqrt))

/-- Embedding of `get_pairwise_similarity` (gmn.py line 709): dictionary
dispatch over `PAIRWISE_SIMILARITY_FUNCTION`; an unknown name raises
`ValueError`. -/
def get_pairwise_similarity (sqrt : ℚ → ℚ) (name : String) :
    Except String (Tensor → Tensor → Tensor) :=
  if name = "euclidean" then Except.ok pairwise_euclidean_similarity
  else if name = "dotproduct" then Except.ok pairwise_dot_product_similarity
  else if name = "cosine" then Except.ok (pairwise_cosine_similarity sqrt)
  else Except.error ("Similarity metric name \"" ++ name ++ "\" not supported.")

/-- Embedding of `tf.nn.softmax` applied to one row (normalization along
the last axis); `e` abstracts the exponential. -/
def softmax (e : ℚ → ℚ) (v : Row) : Row :=
  v.map (fun s => e s / (v.map e).sum)

/-- Weighted sum of rows: `w ⬝ rows` seen as one row of a matrix product
(the rows all share the static width of the first row). -/
def weightedSumRows (w : Row) (rows : Tensor) : Row :=
  (List.zipWith (fun c r => r.map (fun v => c * v)) w rows).foldl radd
    (rzeros (rows.headD []).length)

/-- Embedding of `compute_cross_attention` (gmn.py line 735): similarity
matrix `a = sim x y`, row softmax (`axis=1`) for the x-side weights,
column softmax (`axis=0`) for the y-side weights, then
`attention_x = a_x ⬝ y` and `attention_y = a_yᵀ ⬝ x`. -/
def compute_cross_attention (e : ℚ → ℚ) (x y : Tensor)
    (sim : Tensor → Tensor → Tensor) : Tensor × Tensor :=
  let a := sim x y
  let a_x := a.map (softmax e)
  let a_y_cols := (List.range y.length).map (fun q =>
    softmax e (a.map (fun row => row.getD q 0)))
  (a_x.map (fun w => weightedSumRows w y),
   a_y_cols.map (fun w => weightedSumRows w x))

/-- Embedding of `tf.dynamic_partition(data, block_idx, n)[i]`: the rows of
`data` tagged `i`, keeping their relative order. -/
def dynamicPartition (data : Tensor) (block_idx : List ℕ) (i : ℕ) : Tensor :=
  segmentRows data block_idx i

/-- Embedding of `batch_block_pair_attention` (gmn.py line 762): check
`n_blocks` is even, look up the similarity by name, partition the data by
`block_idx`, run cross attention on each consecutive pair of blocks and
concatenate all the attention outputs back in order. -/
def batch_block_pair_attention (e : ℚ → ℚ) (sqrt : ℚ → ℚ) (data : Tensor)
    (block_idx : List ℕ) (n_blocks : ℕ) (similarity : String) :
    Except String Tensor :=
  if n_blocks % 2 ≠ 0 then
    Except.error ("n_blocks (" ++ toString n_blocks ++
      ") must be a multiple of 2.")
  else
    match get_pairwise_similarity sqrt similarity with
    | Except.error m => Except.error m
    | Except.ok sim =>
      let partitions := (List.range n_blocks).map (dynamicPartition data block_idx)
      Except.ok ((List.range (n_blocks / 2)).map (fun k =>
        let x := partitions.getD (2 * k) []
        let y := partitions.getD (2 * k + 1) []
        let att := compute_cross_attention e x y sim
        att.1 ++ att.2)).flatten

/-- Embedding of `graph_prop_once` (gmn.py line 123): gather endpoint
states, concatenate them (and the optional edge features) per edge, apply
the message net, and segment-sum the messages into the `to` nodes.
`msg_dim` is the static width of the message vectors (the last element of
`edge_hidden_sizes`). -/
def graph_prop_once (msg_dim : ℕ) (node_states : Tensor)
    (from_idx to_idx : List ℕ) (message_net : Row → Row)
    (edge_features : Option Tensor) : Tensor :=
  let from_states := from_idx.map (fun i => node_states.getD i [])
  let to_states := to_idx.map (fun i => node_states.getD i [])
  let edge_inputs := List.zipWith (· ++ ·) from_states to_states
  let edge_inputs :=
    match edge_features with
    | some f => List.zipWith (· ++ ·) edge_inputs f
    | none => edge_inputs
  let messages := edge_inputs.map message_net
  unsorted_segment_sum msg_dim messages to_idx node_states.length

/-- Parameters and configuration of one `GraphPropLayer` (gmn.py line
165).  The learned sonnet modules (message MLPs, node MLP, GRU cell,
LayerNorm) are opaque row functions. -/
structure GraphPropLayer where
  node_state_dim : ℕ
  msg_dim : ℕ
  message_net : Row → Row
  reverse_message_net : Row → Row
  node_mlp : Row → Row
  gru_cell : Row → Row → Row
  layer_norm_msg : Row → Row
  layer_norm_out : Row → Row
  node_update_type : String
  use_reverse_direction : Bool
  reverse_dir_param_different : Bool
  layer_norm : Bool

/-- Embedding of `GraphPropLayer._compute_aggregated_messages` (gmn.py
line 212): forward propagation, plus reverse-direction propagation with
endpoints swapped when enabled (same parameters unless
`reverse_dir_param_different`), optional layer norm. -/
def compute_aggregated_messages (L : GraphPropLayer) (node_states : Tensor)
    (from_idx to_idx : List ℕ) (edge_features : Option Tensor) : Tensor :=
  let agg := graph_prop_once L.msg_dim node_states from_idx to_idx
    L.message_net edge_features
  let agg :=
    if L.use_reverse_direction then
      let rnet := if L.reverse_dir_param_different then L.reverse_message_net
        else L.message_net
      List.zipWith radd agg
        (graph_prop_once L.msg_dim node_states to_idx from_idx rnet
          edge_features)
    else agg
  if L.layer_norm then agg.map L.layer_norm_msg else agg

/-- Concatenate a list of tensors along the feature axis, row by row
(embeds `tf.concat(node_state_inputs, axis=-1)`; a single tensor is
returned unchanged, as in the source). -/
def concatFeatures : List Tensor → Tensor
  | [] => []
  | t :: rest => rest.foldl (fun acc u => List.zipWith (· ++ ·) acc u) t

/-- Embedding of `GraphPropLayer._compute_node_update` (gmn.py line 271):
for `mlp`/`residual` the old states join the update inputs; the inputs are
concatenated featurewise and fed to the GRU cell or the node MLP; an
unknown update type raises `ValueError`. -/
def compute_node_update (L : GraphPropLayer) (node_states : Tensor)
    (node_state_inputs : List Tensor) (node_features : Option Tensor) :
    Except String Tensor :=
  let inputs :=
    if L.node_update_type = "mlp" ∨ L.node_update_type = "residual" then
      node_state_inputs ++ [node_states]
    else node_state_inputs
  let inputs :=
    match node_features with
    | some nf => inputs ++ [nf]
    | none => inputs
  let cat := concatFeatures inputs
  if L.node_update_type = "gru" then
    Except.ok (List.zipWith L.gru_cell cat node_states)
  else
    let mlp_output := cat.map L.node_mlp
    let mlp_output := if L.layer_norm then mlp_output.map L.layer_norm_out
      else mlp_output
    if L.node_update_type = "mlp" then Except.ok mlp_output
    else if L.node_update_type = "residual" then
      Except.ok (List.zipWith radd node_states mlp_output)
    else
      Except.error ("Unknown node update type " ++ L.node_update_type)

/-- Embedding of `GraphPropLayer._build` (gmn.py line 321): one
propagation step, aggregated messages fed into the node update. -/
def GraphPropLayer_build (L : GraphPropLayer) (node_states : Tensor)
    (from_idx to_idx : List ℕ) (edge_features node_features : Option Tensor) :
    Except String Tensor :=
  compute_node_update L node_states
    [compute_aggregated_messages L node_states from_idx to_idx edge_features]
    node_features

/-- Embedding of `GraphPropMatchingLayer._build` (gmn.py line 839):
aggregated within-graph messages, batched cross-graph attention, and the
residual `node_states - cross_graph_attention` as the second node-update
input. -/
def GraphPropMatchingLayer_build (L : GraphPropLayer) (e : ℚ → ℚ)
    (sqrt : ℚ → ℚ) (node_states : Tensor) (from_idx to_idx : List ℕ)
    (graph_idx : List ℕ) (n_graphs : ℕ) (similarity : String)
    (edge_features node_features : Option Tensor) : Except String Tensor :=
  let aggregated_messages := compute_aggregated_messages L node_states
    from_idx to_idx edge_features
  match batch_block_pair_attention e sqrt node_states graph_idx n_graphs
      similarity with
  | Except.error m => Except.error m
  | Except.ok cross_graph_attention =>
    let attention_input := List.zipWith rsub node_states cross_graph_attention
    compute_node_update L node_states [aggregated_messages, attention_input]
      node_features

/-- Embedding of the `AGGREGATION_TYPE` dictionary (gmn.py line 355); the
ops take the static row width first.  `sqrtN` abstracts the real square
root used by the `sqrt_n` reduction. -/
def AGGREGATION_TYPE (sqrtN : ℕ → ℚ) (name : String) :
    Option (ℕ → Tensor → List ℕ → ℕ → Tensor) :=
  if name = "sum" then some unsorted_segment_sum
  else if name = "mean" then some unsorted_segment_mean
  else if name = "sqrt_n" then some (unsorted_segment_sqrt_n sqrtN)
  else if name = "max" then some unsorted_segment_max
  else none

/-- Parameters of a `GraphAggregator` (gmn.py line 363).  The node MLP
(whose output width is `2 * graph_state_dim` when gated) and the optional
final graph MLP are opaque row functions; `sigmoid` abstracts
`tf.nn.sigmoid`. -/
structure GraphAggregator where
  node_transform : Row → Row
  graph_transform : Option (Row → Row)
  graph_state_dim : ℕ
  gated : Bool
  sigmoid : ℚ → ℚ
  aggregation_type : String
  aggregation_op : ℕ → Tensor → List ℕ → ℕ → Tensor

/-- Embedding of `GraphAggregator.__init__` (gmn.py line 366): looks the
reduction up in `AGGREGATION_TYPE`; an unknown name fails with a
`KeyError` at construction. -/
def GraphAggregator_init (node_transform : Row → Row)
    (graph_transform : Option (Row → Row)) (graph_state_dim : ℕ)
    (gated : Bool) (sigmoid : ℚ → ℚ) (sqrtN : ℕ → ℚ)
    (aggregation_type : String) : Except String GraphAggregator :=
  match AGGREGATION_TYPE sqrtN aggregation_type with
  | some op => Except.ok
      { node_transform := node_transform
        graph_transform := graph_transform
        graph_state_dim := graph_state_dim
        gated := gated
        sigmoid := sigmoid
        aggregation_type := aggregation_type
        aggregation_op := op }
  | none => Except.error ("KeyError: " ++ aggregation_type)

/-- Embedding of `GraphAggregator._build` (gmn.py line 393): node MLP,
optional sigmoid gating (gate half times value half), segment reduction by
`graph_idx`, the `max` empty-segment correction
`graph_states * cast(graph_states > -1e5)`, then the optional final
transform. -/
def GraphAggregator_build (A : GraphAggregator) (node_states : Tensor)
    (graph_idx : List ℕ) (n_graphs : ℕ) : Tensor :=
  let node_states_g := node_states.map A.node_transform
  let node_states_g :=
    if A.gated then
      node_states_g.map (fun row =>
        List.zipWith (· * ·) (row.drop A.graph_state_dim)
          ((row.take A.graph_state_dim).map A.sigmoid))
    else node_states_g
  let graph_states := A.aggregation_op A.graph_state_dim node_states_g
    graph_idx n_graphs
  let graph_states :=
    if A.aggregation_type = "max" then
      graph_states.map (fun row =>
        row.map (fun v => v * (if v > -100000 then 1 else 0)))
    else graph_states
  match A.graph_transform with
  | some f => graph_states.map f
  | none => graph_states

/-- Layer bookkeeping of a `GraphEmbeddingNet` (gmn.py line 442): the
number of propagation layers requested, the sharing flag, and the list of
layer modules built so far (a module is identified by the id its
parameters were created under; with sharing, later slots reuse the first
module). -/
structure GraphEmbeddingNet where
  n_prop_layers : ℕ
  share_prop_params : Bool
  node_update_type : String
  prop_layers : List ℕ

/-- Fresh `GraphEmbeddingNet` as constructed by `__init__`: no layers
built yet. -/
def GraphEmbeddingNet_init (n_prop_layers : ℕ) (share_prop_params : Bool)
    (node_update_type : String) : GraphEmbeddingNet :=
  { n_prop_layers := n_prop_layers
    share_prop_params := share_prop_params
    node_update_type := node_update_type
    prop_layers := [] }

/-- One iteration of the layer-building loop in `GraphEmbeddingNet._build`
(gmn.py line 546): `self._prop_layers.append(self._build_layer(i))` for
`i == 0` or unshared parameters, else
`self._prop_layers.append(self._prop_layers[0])`. -/
def appendLayer (share : Bool) (layers : List ℕ) (i : ℕ) : List ℕ :=
  if i = 0 ∨ ¬share then layers ++ [i] else layers ++ [layers.headD 0]

/-- The whole building loop `for i in range(n_prop_layers)` of
`GraphEmbeddingNet._build`, run when `len(prop_layers) < n_prop_layers`:
note it APPENDS `n` more entries to whatever is already built. -/
def buildPropLayers (share : Bool) (n : ℕ) (layers : List ℕ) : List ℕ :=
  (List.range n).foldl (appendLayer share) layers

/-- Embedding of `GraphEmbeddingNet._build` (gmn.py line 523), with the
encoder, the per-layer computation and the aggregator abstracted as
functions on an opaque node-state type `V`: build layers if fewer are
built than `n_prop_layers`, encode, then apply EVERY built layer in
`prop_layers` (the source loop is `for layer in self._prop_layers`),
recording the per-round states in `layer_outputs`.  Returns the updated
module state, the aggregated output and `layer_outputs`. -/
def GraphEmbeddingNet_build {V : Type} (net : GraphEmbeddingNet)
    (encoder : V → V) (applyLayer : ℕ → V → V) (aggregator : V → V)
    (node_features : V) : GraphEmbeddingNet × V × List V :=
  let layers :=
    if net.prop_layers.length < net.n_prop_layers then
      buildPropLayers net.share_prop_params net.n_prop_layers net.prop_layers
    else net.prop_layers
  let init_states := encoder node_features
  let final := layers.foldl
    (fun (acc : V × List V) lid =>
      let ns := applyLayer lid acc.1
      (ns, acc.2 ++ [ns]))
    (init_states, [init_states])
  ({ net with prop_layers := layers }, aggregator final.1, final.2)

/-- Embedding of `GraphEmbeddingNet.reset_n_prop_layers` (gmn.py line
575): sets the field, nothing else — no validation, no layer rebuild. -/
def reset_n_prop_layers (net : GraphEmbeddingNet) (n_prop_layers : ℕ) :
    GraphEmbeddingNet :=
  { net with n_prop_layers := n_prop_layers }

/-- The configuration names `build_model` (gmn.py line 1620) dispatches
on. -/
structure ModelConfig where
  model_type : String
  aggregation_type : String
  similarity : String
  node_update_type : String
  n_prop_layers : ℕ
  share_prop_params : Bool

/-- The model object `build_model` returns: an embedding net, or a
matching net carrying its similarity name. -/
inductive BuiltModel where
  | embeddingNet (net : GraphEmbeddingNet)
  | matchingNet (net : GraphEmbeddingNet) (similarity : String)

/-- Embedding of `build_model` (gmn.py line 1620) up to model creation:
the aggregator constructor validates the aggregation name (KeyError), the
model-type dispatch validates the variant name (ValueError); the
similarity and node-update-type strings are merely stored — nothing
validates them here. -/
def build_model (node_transform : Row → Row)
    (graph_transform : Option (Row → Row)) (graph_state_dim : ℕ)
    (gated : Bool) (sigmoid : ℚ → ℚ) (sqrtN : ℕ → ℚ) (config : ModelConfig) :
    Except String (GraphAggregator × BuiltModel) :=
  match GraphAggregator_init node_transform graph_transform graph_state_dim
      gated sigmoid sqrtN config.aggregation_type with
  | Except.error m => Except.error m
  | Except.ok aggregator =>
    if config.model_type = "embedding" then
      Except.ok (aggregator, BuiltModel.embeddingNet
        (GraphEmbeddingNet_init config.n_prop_layers config.share_prop_params
          config.node_update_type))
    else if config.model_type = "matching" then
      Except.ok (aggregator, BuiltModel.matchingNet
        (GraphEmbeddingNet_init config.n_prop_layers config.share_prop_params
          config.node_update_type) config.similarity)
    else
      Except.error ("Unknown model type: " ++ config.model_type)

/-! Theorems. -/

lemma rdot_expand (u : Row) : ∀ (v : Row), u.length = v.length →
    2 * rdot u v - rdot u u - rdot v v
      = -(List.zipWith (fun a b => (a - b) ^ 2) u v).sum := by
  induction u with
  | nil =>
    intro v h
    cases v with
    | nil => simp [rdot]
    | cons b w => simp at h
  | cons a u ih =>
    intro v h
    cases v with
    | nil => simp at h
    | cons b w =>
      have h' : u.length = w.length := by simpa using h
      have hw := ih w h'
      simp only [rdot, List.zipWith_cons_cons, List.sum_cons] at hw ⊢
      linear_combination hw

/-- Claim C7: `pairwise_euclidean_similarity` returns exactly the negative
squared Euclidean distance for every pair of rows: the expansion
`2 xᵀy - |x|² - |y|²` used by the source equals `-|x - y|²`. -/
theorem c7_euclidean_similarity_is_neg_squared_distance (x y : Tensor)
    (h : ∀ u ∈ x, ∀ v ∈ y, u.length = v.length) :
    pairwise_euclidean_similarity x y
      = x.map (fun u => y.map (fun v =>
          -(List.zipWith (fun a b => (a - b) ^ 2) u v).sum)) := by
  unfold pairwise_euclidean_similarity
  refine List.map_congr_left (fun u hu => ?_)
  refine List.map_congr_left (fun v hv => ?_)
  exact rdot_expand u v (h u hu v hv)

/-- Witness for C7 at a concrete pair of 2-column matrices. -/
theorem c7_witness :
    (∀ u ∈ ([[1, 2]] : Tensor), ∀ v ∈ ([[3, 4], [5, 6]] : Tensor),
      u.length = v.length) ∧
    pairwise_euclidean_similarity [[1, 2]] [[3, 4], [5, 6]]
      = ([[1, 2]] : Tensor).map (fun u =>
          ([[3, 4], [5, 6]] : Tensor).map (fun v =>
            -(List.zipWith (fun a b => (a - b) ^ 2) u v).sum)) :=
  ⟨by decide, c7_euclidean_similarity_is_neg_squared_distance
    [[1, 2]] [[3, 4], [5, 6]] (by decide)⟩

/-- Claim C8: the loss functions have the stated numeric semantics:
margin pairwise loss `max(0, margin - label·(1 - d(x,y)))` with `d` the
squared Euclidean distance, Hamming pairwise loss normalized by `1/4`,
margin triplet loss `max(0, margin + d(x1,y) - d(x2,z))`, Hamming triplet
loss normalized by `1/8`. -/
theorem c8_loss_semantics (tanh : ℚ → ℚ) (x y x1 y1 x2 z : Row)
    (label margin : ℚ) :
    pairwise_loss tanh x y label "margin" margin
      = Except.ok (max 0 (margin - label *
          (1 - (List.zipWith (fun a b => (a - b) ^ 2) x y).sum)))
    ∧ pairwise_loss tanh x y label "hamming" margin
      = Except.ok ((1 / 4) *
          (label - approximate_hamming_similarity tanh x y) ^ 2)
    ∧ triplet_loss tanh x1 y1 x2 z "margin" margin
      = Except.ok (max 0 (margin + euclidean_distance x1 y1
          - euclidean_distance x2 z))
    ∧ triplet_loss tanh x1 y1 x2 z "hamming" margin
      = Except.ok ((1 / 8) *
          ((approximate_hamming_similarity tanh x1 y1 - 1) ^ 2
            + (approximate_hamming_similarity tanh x2 z + 1) ^ 2)) := by
  refine ⟨?_, ?_, ?_, ?_⟩ <;>
    simp [pairwise_loss, triplet_loss, relu, euclidean_distance, max_comm] <;>
    norm_num

/-- Scenario for C1: build a net with 2 unshared propagation layers, run a
forward pass (builds and applies 2 layers), reset to 1 layer, run a second
forward pass.  Node states are abstracted to ℕ with each layer application
adding 1, so the final value counts applied layers. -/
def c1scenario : GraphEmbeddingNet × ℕ × List ℕ :=
  let net0 := GraphEmbeddingNet_init 2 false "residual"
  let r1 := GraphEmbeddingNet_build net0 id (fun _ s => s + 1) id 0
  let net2 := reset_n_prop_layers r1.1 1
  GraphEmbeddingNet_build net2 id (fun _ s => s + 1) id 0

/-- Claim C1 (code bug): after `reset_n_prop_layers(1)` on a net built
with 2 unshared layers, the next forward pass still applies BOTH built
layers — the loop `for layer in self._prop_layers` ignores
`_n_prop_layers` once the layers are built.  The field is 1, yet the
forward pass records 2 layer outputs (plus the initial state) and applies
the +1 layer twice. -/
theorem c1_reset_smaller_still_applies_all_built_layers :
    c1scenario.1.n_prop_layers = 1
    ∧ c1scenario.1.prop_layers.length = 2
    ∧ c1scenario.2.2.length = 2 + 1
    ∧ c1scenario.2.1 = 2 :=
  ⟨rfl, rfl, rfl, rfl⟩

/-- Net used for the C2 counterexample: 2 unshared layers, one forward
pass done. -/
def c2built : GraphEmbeddingNet :=
  (GraphEmbeddingNet_build (GraphEmbeddingNet_init 2 false "residual")
    id (fun _ s => s + 1) id (0 : ℕ)).1

/-- Counterexample to claim C2: with parameters NOT shared,
`reset_n_prop_layers(5)` on a net built with 2 layers raises nothing — it
returns normally having only updated the field, and the next forward pass
silently builds 5 additional layers (7 total) and applies all 7. -/
theorem c2_counterexample_reset_larger_is_silently_accepted :
    reset_n_prop_layers c2built 5 = { c2built with n_prop_layers := 5 }
    ∧ (GraphEmbeddingNet_build (reset_n_prop_layers c2built 5)
        id (fun _ s => s + 1) id (0 : ℕ)).1.prop_layers.length = 7
    ∧ (GraphEmbeddingNet_build (reset_n_prop_layers c2built 5)
        id (fun _ s => s + 1) id (0 : ℕ)).2.2.length = 7 + 1 :=
  ⟨rfl, rfl, rfl⟩

lemma appendLayer_length (share : Bool) (layers : List ℕ) (i : ℕ) :
    (appendLayer share layers i).length = layers.length + 1 := by
  unfold appendLayer
  split <;> simp

lemma foldl_appendLayer_length (share : Bool) :
    ∀ (l : List ℕ) (layers : List ℕ),
      (l.foldl (appendLayer share) layers).length = layers.length + l.length := by
  intro l
  induction l with
  | nil => intro layers; simp
  | cons i t ih =>
    intro layers
    simp only [List.foldl_cons, ih, appendLayer_length, List.length_cons]
    omega

lemma buildPropLayers_length (share : Bool) (n : ℕ) (layers : List ℕ) :
    (buildPropLayers share n layers).length = layers.length + n := by
  unfold buildPropLayers
  rw [foldl_appendLayer_length]
  simp

/-- Claim C2, amended: `reset_n_prop_layers` with a value larger than the
number of built layers and unshared parameters is silently accepted:
the call merely updates the field, and the next forward pass appends that
many additional layer modules and applies all of them — no error is
signalled anywhere. -/
theorem c2_amended_reset_larger_silently_builds_more {V : Type}
    (net : GraphEmbeddingNet) (k : ℕ) (encoder : V → V)
    (applyLayer : ℕ → V → V) (aggregator : V → V) (inp : V) :
    reset_n_prop_layers net k = { net with n_prop_layers := k }
    ∧ (net.prop_layers.length < k →
        (GraphEmbeddingNet_build (reset_n_prop_layers net k) encoder
          applyLayer aggregator inp).1.prop_layers.length
          = net.prop_layers.length + k) := by
  refine ⟨rfl, fun h => ?_⟩
  unfold GraphEmbeddingNet_build reset_n_prop_layers
  simp only [if_pos h, buildPropLayers_length]

/-- Witness for the amended C2 at the concrete 2-layer net and k = 5. -/
theorem c2_amended_witness :
    c2built.prop_layers.length < 5
    ∧ (GraphEmbeddingNet_build (reset_n_prop_layers c2built 5)
        id (fun _ s => s + 1) id (0 : ℕ)).1.prop_layers.length
        = c2built.prop_layers.length + 5 :=
  ⟨by decide,
    (c2_amended_reset_larger_silently_builds_more c2built 5
      id (fun _ s => s + 1) id (0 : ℕ)).2 (by decide)⟩

lemma float32_lowest_eq : float32_lowest = -(2 ^ 128 - 2 ^ 104) := by
  norm_num [float32_lowest]

lemma segmentRows_eq_nil (data : Tensor) (ids : List ℕ) (g : ℕ)
    (h : ∀ i ∈ ids, i ≠ g) : segmentRows data ids g = [] := by
  unfold segmentRows
  rw [List.filter_eq_nil_iff.mpr, List.map_nil]
  rintro ⟨r, j⟩ hp
  have hj := (List.of_mem_zip hp).2
  simp [h j hj]

lemma getD_range_map {α : Type} (f : ℕ → α) (n g : ℕ) (hg : g < n) (d : α) :
    ((List.range n).map f).getD g d = f g := by
  rw [List.getD_eq_getElem?_getD, List.getElem?_map, List.getElem?_range hg]
  rfl

lemma getD_zipWith {α β γ : Type} (f : α → β → γ) (as : List α) (bs : List β)
    (i : ℕ) (ha : i < as.length) (hb : i < bs.length) (da : α) (db : β)
    (dc : γ) :
    (List.zipWith f as bs).getD i dc = f (as.getD i da) (bs.getD i db) := by
  rw [List.getD_eq_getElem?_getD, List.getD_eq_getElem?_getD,
    List.getD_eq_getElem?_getD, List.getElem?_zipWith,
    List.getElem?_eq_getElem ha, List.getElem?_eq_getElem hb]
  rfl

lemma getD_map {α β : Type} (f : α → β) (l : List α) (i : ℕ)
    (hi : i < l.length) (d : β) (d' : α) :
    (l.map f).getD i d = f (l.getD i d') := by
  rw [List.getD_eq_getElem?_getD, List.getD_eq_getElem?_getD,
    List.getElem?_map, List.getElem?_eq_getElem hi]
  rfl

lemma unsorted_segment_sum_length (dim : ℕ) (data : Tensor)
    (ids : List ℕ) (num : ℕ) :
    (unsorted_segment_sum dim data ids num).length = num := by
  simp [unsorted_segment_sum]

lemma unsorted_segment_sum_getD_empty (dim : ℕ) (data : Tensor)
    (ids : List ℕ) (num i : ℕ) (hi : i < num) (h : ∀ e ∈ ids, e ≠ i) :
    (unsorted_segment_sum dim data ids num).getD i [] = rzeros dim := by
  unfold unsorted_segment_sum
  rw [getD_range_map _ _ _ hi, segmentRows_eq_nil _ _ _ h]
  rfl

lemma unsorted_segment_max_length (dim : ℕ) (data : Tensor)
    (ids : List ℕ) (num : ℕ) :
    (unsorted_segment_max dim data ids num).length = num := by
  simp [unsorted_segment_max]

lemma unsorted_segment_max_getD_empty (dim : ℕ) (data : Tensor)
    (ids : List ℕ) (num g : ℕ) (hg : g < num) (h : ∀ i ∈ ids, i ≠ g) :
    (unsorted_segment_max dim data ids num).getD g []
      = List.replicate dim float32_lowest := by
  unfold unsorted_segment_max
  rw [getD_range_map _ _ _ hg]
  simp only [segmentRows_eq_nil _ _ _ h, List.foldl_nil]

lemma corrected_max_getD_empty (dim num g : ℕ) (X : Tensor)
    (ids : List ℕ) (hg : g < num) (h : ∀ i ∈ ids, i ≠ g) :
    ((unsorted_segment_max dim X ids num).map (fun row =>
      row.map (fun v => v * (if v > -100000 then 1 else 0)))).getD g []
      = List.replicate dim 0 := by
  have hlen : g < (unsorted_segment_max dim X ids num).length := by
    simpa [unsorted_segment_max_length] using hg
  rw [getD_map _ _ _ hlen ([] : Row) ([] : Row),
    unsorted_segment_max_getD_empty dim X ids num g hg h]
  have hlt : ¬(float32_lowest > (-100000 : ℚ)) := by
    norm_num [float32_lowest]
  simp [List.map_replicate, hlt]

/-- Claim C9: with aggregation type `max`, a graph with zero nodes yields
the all-zero vector from the aggregator (before the optional final
transform, here absent): the reduction produces the float32 lowest
sentinel on the empty segment, and the `> -1e5` correction resets it to
zero. -/
theorem c9_max_aggregation_empty_graph_is_zero (nt : Row → Row) (dim : ℕ)
    (gated : Bool) (sig : ℚ → ℚ) (sqrtN : ℕ → ℚ) (A : GraphAggregator)
    (hA : GraphAggregator_init nt none dim gated sig sqrtN "max"
      = Except.ok A)
    (node_states : Tensor) (graph_idx : List ℕ) (n_graphs g : ℕ)
    (hg : g < n_graphs) (hempty : ∀ i ∈ graph_idx, i ≠ g) :
    (GraphAggregator_build A node_states graph_idx n_graphs).getD g []
      = List.replicate dim 0 := by
  unfold GraphAggregator_init AGGREGATION_TYPE at hA
  simp only [String.reduceEq, if_false, if_true, ite_false, ite_true,
    reduceIte, Except.ok.injEq] at hA
  subst hA
  unfold GraphAggregator_build
  simp only [String.reduceEq, reduceIte, if_true]
  exact corrected_max_getD_empty dim n_graphs g _ graph_idx hg hempty

/-- Concrete `max` aggregator used by the C9 witness. -/
def c9aggregator : GraphAggregator :=
  { node_transform := id
    graph_transform := none
    graph_state_dim := 1
    gated := false
    sigmoid := id
    aggregation_type := "max"
    aggregation_op := unsorted_segment_max }

/-- Witness for C9: batch of 2 graphs where graph 1 has zero nodes. -/
theorem c9_witness :
    GraphAggregator_init id none 1 false id (fun n => (n : ℚ)) "max"
      = Except.ok c9aggregator
    ∧ 1 < 2 ∧ (∀ i ∈ ([0] : List ℕ), i ≠ 1)
    ∧ (GraphAggregator_build c9aggregator [[5]] [0] 2).getD 1 []
        = List.replicate 1 0 :=
  ⟨rfl, by decide, by decide,
    c9_max_aggregation_empty_graph_is_zero id 1 false id (fun n => (n : ℚ))
      c9aggregator rfl [[5]] [0] 2 1 (by decide) (by decide)⟩

/-- Concrete `max` aggregator used by claim C10. -/
def c10aggregator : GraphAggregator :=
  { node_transform := id
    graph_transform := none
    graph_state_dim := 1
    gated := false
    sigmoid := id
    aggregation_type := "max"
    aggregation_op := unsorted_segment_max }

/-- Claim C10: the `max` empty-graph correction zeroes EVERY output
component not strictly greater than -1e5 — also legitimate aggregated
values of non-empty graphs.  First conjunct: the built output is exactly
the reduction output with every component `v` replaced by
`if -100000 < v then v else 0`.  Second conjunct: on the non-empty graph
0 with single gated-off node value -200000, the reduction's true value is
-200000 but the aggregator reports 0. -/
theorem c10_max_correction_zeroes_nonempty_graphs (nt : Row → Row)
    (dim : ℕ) (gated : Bool) (sig : ℚ → ℚ) (sqrtN : ℕ → ℚ)
    (A : GraphAggregator)
    (hA : GraphAggregator_init nt none dim gated sig sqrtN "max"
      = Except.ok A) :
    (∀ (node_states : Tensor) (graph_idx : List ℕ) (n_graphs : ℕ),
      GraphAggregator_build A node_states graph_idx n_graphs
        = (unsorted_segment_max dim
            (if gated then
              (node_states.map nt).map (fun row =>
                List.zipWith (· * ·) (row.drop dim)
                  ((row.take dim).map sig))
             else node_states.map nt)
            graph_idx n_graphs).map (fun row =>
              row.map (fun v => if -100000 < v then v else 0)))
    ∧ (GraphAggregator_build c10aggregator [[-200000]] [0] 1 = [[0]]
        ∧ unsorted_segment_max 1 [[-200000]] [0] 1 = [[-200000]]
        ∧ (0 : ℕ) ∈ ([0] : List ℕ)) := by
  constructor
  · intro node_states graph_idx n_graphs
    unfold GraphAggregator_init AGGREGATION_TYPE at hA
    simp only [String.reduceEq, if_false, if_true, ite_false, ite_true,
      reduceIte, Except.ok.injEq] at hA
    subst hA
    unfold GraphAggregator_build
    simp only [String.reduceEq, reduceIte]
    congr 1
    funext row
    refine List.map_congr_left (fun v _ => ?_)
    by_cases h : (-100000 : ℚ) < v <;> simp [h]
  · have hm : max float32_lowest (-200000 : ℚ) = -200000 :=
      max_eq_right (by norm_num [float32_lowest])
    refine ⟨?_, ?_, by decide⟩
    · simp only [GraphAggregator_build, c10aggregator, String.reduceEq,
        reduceIte, if_true]
      simp [unsorted_segment_max, segmentRows, rmax, List.range_succ, hm]
      norm_num
    · simp [unsorted_segment_max, segmentRows, rmax, List.range_succ, hm]

/-- Witness for C10 at the concrete aggregator built from `max`. -/
theorem c10_witness :
    GraphAggregator_init id none 1 false id (fun n => (n : ℚ)) "max"
      = Except.ok c10aggregator
    ∧ (GraphAggregator_build c10aggregator [[-200000]] [0] 1 = [[0]]
        ∧ unsorted_segment_max 1 [[-200000]] [0] 1 = [[-200000]]
        ∧ (0 : ℕ) ∈ ([0] : List ℕ)) :=
  ⟨rfl, (c10_max_correction_zeroes_nonempty_graphs id 1 false id
    (fun n => (n : ℚ)) c10aggregator rfl).2⟩

/-- Claim C4, amended: no unknown name ever falls back to a default —
each dispatch returns an error — but only the aggregation-type lookup
(a bare KeyError) and the model-type dispatch happen at construction;
an unknown update-rule or similarity name is stored unvalidated and only
rejected during the forward pass. -/
theorem c4_amended_unknown_names_error (sqrt : ℚ → ℚ) (sqrtN : ℕ → ℚ)
    (nt : Row → Row) (gt : Option (Row → Row)) (dim : ℕ) (gated : Bool)
    (sig : ℚ → ℚ) :
    (∀ name : String,
      name ∉ (["euclidean", "dotproduct", "cosine"] : List String) →
      get_pairwise_similarity sqrt name = Except.error
        ("Similarity metric name \"" ++ name ++ "\" not supported."))
    ∧ (∀ name : String,
      name ∉ (["sum", "mean", "sqrt_n", "max"] : List String) →
      GraphAggregator_init nt gt dim gated sig sqrtN name
        = Except.error ("KeyError: " ++ name))
    ∧ (∀ config : ModelConfig,
      config.model_type ∉ (["embedding", "matching"] : List String) →
      (∀ agg, GraphAggregator_init nt gt dim gated sig sqrtN
          config.aggregation_type = Except.ok agg →
        build_model nt gt dim gated sig sqrtN config
          = Except.error ("Unknown model type: " ++ config.model_type)))
    ∧ (∀ (L : GraphPropLayer) (ns : Tensor) (inputs : List Tensor)
        (nf : Option Tensor),
      L.node_update_type ∉ (["mlp", "residual", "gru"] : List String) →
      compute_node_update L ns inputs nf
        = Except.error ("Unknown node update type " ++ L.node_update_type)) := by
  refine ⟨?_, ?_, ?_, ?_⟩
  · intro name h
    simp only [List.mem_cons, List.not_mem_nil, or_false, not_or] at h
    obtain ⟨h1, h2, h3⟩ := h
    simp [get_pairwise_similarity, h1, h2, h3]
  · intro name h
    simp only [List.mem_cons, List.not_mem_nil, or_false, not_or] at h
    obtain ⟨h1, h2, h3, h4⟩ := h
    simp [GraphAggregator_init, AGGREGATION_TYPE, h1, h2, h3, h4]
  · intro config h agg hagg
    simp only [List.mem_cons, List.not_mem_nil, or_false, not_or] at h
    obtain ⟨h1, h2⟩ := h
    simp [build_model, hagg, h1, h2]
  · intro L ns inputs nf h
    simp only [List.mem_cons, List.not_mem_nil, or_false, not_or] at h
    obtain ⟨h1, h2, h3⟩ := h
    cases nf <;> simp [compute_node_update, h1, h2, h3]

/-- Configuration used to refute C4 as stated: valid model type and
aggregation, bogus similarity and update-rule names. -/
def c4config : ModelConfig :=
  { model_type := "matching"
    aggregation_type := "sum"
    similarity := "bogus-sim"
    node_update_type := "bogus-update"
    n_prop_layers := 1
    share_prop_params := false }

/-- The aggregator `build_model` constructs for `c4config`. -/
def c4aggregator : GraphAggregator :=
  { node_transform := id
    graph_transform := none
    graph_state_dim := 1
    gated := false
    sigmoid := id
    aggregation_type := "sum"
    aggregation_op := unsorted_segment_sum }

/-- Propagation layer with the bogus update-rule name of `c4config`. -/
def c4layer : GraphPropLayer :=
  { node_state_dim := 1
    msg_dim := 1
    message_net := id
    reverse_message_net := id
    node_mlp := id
    gru_cell := fun _ s => s
    layer_norm_msg := id
    layer_norm_out := id
    node_update_type := "bogus-update"
    use_reverse_direction := false
    reverse_dir_param_different := false
    layer_norm := false }

/-- Counterexample to claim C4 as stated: building the model with an
unknown update-rule name AND an unknown similarity name succeeds — no
configuration error before computation begins — and the errors only
surface during the forward pass (the node-update step, after message
aggregation, and the cross-attention step). -/
theorem c4_counterexample_unknown_names_accepted_at_build :
    build_model id none 1 false id (fun n => (n : ℚ)) c4config
      = Except.ok (c4aggregator, BuiltModel.matchingNet
          (GraphEmbeddingNet_init 1 false "bogus-update") "bogus-sim")
    ∧ GraphPropLayer_build c4layer [[1]] [] [] none none
        = Except.error "Unknown node update type bogus-update"
    ∧ batch_block_pair_attention id id [[1], [2]] [0, 1] 2 "bogus-sim"
        = Except.error "Similarity metric name \"bogus-sim\" not supported." :=
  ⟨rfl, rfl, rfl⟩

/-- Witness for the amended C4 at the concrete unknown name "banana". -/
theorem c4_amended_witness :
    get_pairwise_similarity id "banana"
      = Except.error "Similarity metric name \"banana\" not supported."
    ∧ GraphAggregator_init id none 1 false id (fun n => (n : ℚ)) "banana"
        = Except.error "KeyError: banana" :=
  ⟨(c4_amended_unknown_names_error id (fun n => (n : ℚ)) id none 1 false
      id).1 "banana" (by decide),
    (c4_amended_unknown_names_error id (fun n => (n : ℚ)) id none 1 false
      id).2.1 "banana" (by decide)⟩

lemma radd_rzeros (m : ℕ) : radd (rzeros m) (rzeros m) = rzeros m := by
  induction m with
  | zero => rfl
  | succ k ih =>
    simp only [rzeros, List.replicate_succ, radd, List.zipWith_cons_cons,
      add_zero]
    exact congrArg (List.cons 0) ih

lemma graph_prop_once_length (m : ℕ) (ns : Tensor) (f t : List ℕ)
    (net : Row → Row) (ef : Option Tensor) :
    (graph_prop_once m ns f t net ef).length = ns.length := by
  simp [graph_prop_once, unsorted_segment_sum_length]

lemma graph_prop_once_getD_empty (m : ℕ) (ns : Tensor) (f t : List ℕ)
    (net : Row → Row) (ef : Option Tensor) (i : ℕ) (hi : i < ns.length)
    (h : ∀ e ∈ t, e ≠ i) :
    (graph_prop_once m ns f t net ef).getD i [] = rzeros m := by
  simp only [graph_prop_once]
  exact unsorted_segment_sum_getD_empty _ _ _ _ _ hi h

lemma compute_aggregated_messages_length (L : GraphPropLayer) (ns : Tensor)
    (f t : List ℕ) (ef : Option Tensor) :
    (compute_aggregated_messages L ns f t ef).length = ns.length := by
  unfold compute_aggregated_messages
  cases L.layer_norm <;> cases L.use_reverse_direction <;>
    simp [graph_prop_once_length]

/-- Claim C6: a node with zero incoming edges (its index appears in no
entry of `to_idx`, nor of `from_idx` when the reverse direction is
enabled) gets the all-zero aggregated-message vector, and under the
`residual` update rule its new state is the old state plus the node MLP
applied to the concatenation of the zero aggregated message and the old
state. -/
theorem c6_zero_neighbor_node_zero_message (L : GraphPropLayer)
    (hnorm : L.layer_norm = false) (hres : L.node_update_type = "residual")
    (node_states : Tensor) (from_idx to_idx : List ℕ)
    (edge_features : Option Tensor) (i : ℕ) (hi : i < node_states.length)
    (hto : ∀ e ∈ to_idx, e ≠ i)
    (hfrom : L.use_reverse_direction = true → ∀ e ∈ from_idx, e ≠ i) :
    (compute_aggregated_messages L node_states from_idx to_idx
        edge_features).getD i [] = rzeros L.msg_dim
    ∧ ∃ result, GraphPropLayer_build L node_states from_idx to_idx
        edge_features none = Except.ok result
      ∧ result.getD i [] = radd (node_states.getD i [])
          (L.node_mlp (rzeros L.msg_dim ++ node_states.getD i [])) := by
  have hA : (compute_aggregated_messages L node_states from_idx to_idx
      edge_features).getD i [] = rzeros L.msg_dim := by
    unfold compute_aggregated_messages
    cases hrev : L.use_reverse_direction
    · simp only [hnorm, hrev, Bool.false_eq_true, if_false]
      exact graph_prop_once_getD_empty _ _ _ _ _ _ i hi hto
    · simp only [hnorm, hrev, Bool.false_eq_true, if_false, if_true]
      rw [getD_zipWith radd _ _ i
        (by simpa [graph_prop_once_length] using hi)
        (by simpa [graph_prop_once_length] using hi) [] [],
        graph_prop_once_getD_empty _ _ _ _ _ _ i hi hto,
        graph_prop_once_getD_empty _ _ _ _ _ _ i hi (hfrom hrev)]
      exact radd_rzeros _
  refine ⟨hA, ?_⟩
  have hbuild : GraphPropLayer_build L node_states from_idx to_idx
      edge_features none
      = Except.ok (List.zipWith radd node_states
          ((List.zipWith (· ++ ·)
            (compute_aggregated_messages L node_states from_idx to_idx
              edge_features) node_states).map L.node_mlp)) := by
    unfold GraphPropLayer_build compute_node_update concatFeatures
    simp [hres, hnorm]
  refine ⟨_, hbuild, ?_⟩
  have hagglen : (compute_aggregated_messages L node_states from_idx to_idx
      edge_features).length = node_states.length :=
    compute_aggregated_messages_length L node_states from_idx to_idx
      edge_features
  rw [getD_zipWith radd _ _ i hi
      (by simp only [List.length_map, List.length_zipWith, hagglen,
        Nat.min_self]; exact hi) [] [],
    getD_map _ _ i
      (by simp only [List.length_zipWith, hagglen, Nat.min_self]; exact hi)
      [] [],
    getD_zipWith (· ++ ·) _ _ i (by rw [hagglen]; exact hi) hi [] [],
    hA]

/-- Propagation layer used by the C6 witness: residual update, reverse
direction enabled, no layer norm, identity nets. -/
def c6layer : GraphPropLayer :=
  { node_state_dim := 2
    msg_dim := 2
    message_net := id
    reverse_message_net := id
    node_mlp := id
    gru_cell := fun _ s => s
    layer_norm_msg := id
    layer_norm_out := id
    node_update_type := "residual"
    use_reverse_direction := true
    reverse_dir_param_different := true
    layer_norm := false }

/-- Witness for C6: two nodes, one self-loop edge on node 1, so node 0
has zero incident edges in either direction. -/
theorem c6_witness :
    c6layer.layer_norm = false ∧ c6layer.node_update_type = "residual"
    ∧ (0 : ℕ) < ([[1, 2], [3, 4]] : Tensor).length
    ∧ (∀ e ∈ ([1] : List ℕ), e ≠ 0)
    ∧ (c6layer.use_reverse_direction = true → ∀ e ∈ ([1] : List ℕ), e ≠ 0)
    ∧ ((compute_aggregated_messages c6layer [[1, 2], [3, 4]] [1] [1]
          none).getD 0 [] = rzeros c6layer.msg_dim
      ∧ ∃ result, GraphPropLayer_build c6layer [[1, 2], [3, 4]] [1] [1]
          none none = Except.ok result
        ∧ result.getD 0 [] = radd (([[1, 2], [3, 4]] : Tensor).getD 0 [])
            (c6layer.node_mlp (rzeros c6layer.msg_dim
              ++ ([[1, 2], [3, 4]] : Tensor).getD 0 []))) :=
  ⟨rfl, rfl, by decide, by decide, fun _ => by decide,
    c6_zero_neighbor_node_zero_message c6layer rfl rfl [[1, 2], [3, 4]]
      [1] [1] none 0 (by decide) (by decide) (fun _ => by decide)⟩

lemma zip_map_fst_snd (l : List (Row × ℕ)) :
    (l.map Prod.fst).zip (l.map Prod.snd) = l := by
  rw [List.zip_map']
  simp

lemma segmentRows_of_pairs (m : List (Row × ℕ)) (i : ℕ) :
    segmentRows (m.map Prod.fst) (m.map Prod.snd) i
      = (m.filter (fun p => p.2 == i)).map Prod.fst := by
  unfold segmentRows
  rw [zip_map_fst_snd]

lemma radd_right_comm (z x y : Row) : radd (radd z x) y = radd (radd z y) x := by
  induction z generalizing x y with
  | nil => simp [radd]
  | cons a as ih =>
    cases x with
    | nil => simp [radd]
    | cons b bs =>
      cases y with
      | nil => simp [radd]
      | cons c cs =>
        simp only [radd, List.zipWith_cons_cons] at ih ⊢
        refine List.cons_eq_cons.mpr ⟨by ring, ?_⟩
        exact ih bs cs

lemma rmax_right_comm (z x y : Row) : rmax (rmax z x) y = rmax (rmax z y) x := by
  induction z generalizing x y with
  | nil => simp [rmax]
  | cons a as ih =>
    cases x with
    | nil => simp [rmax]
    | cons b bs =>
      cases y with
      | nil => simp [rmax]
      | cons c cs =>
        simp only [rmax, List.zipWith_cons_cons] at ih ⊢
        refine List.cons_eq_cons.mpr ⟨sup_right_comm a b c, ?_⟩
        exact ih bs cs

lemma aggregation_data_perm (op : ℕ → Tensor → List ℕ → ℕ → Tensor)
    (d n : ℕ)
    (hop : ∀ (m₁ m₂ : List (Row × ℕ)), m₁.Perm m₂ →
      op d (m₁.map Prod.fst) (m₁.map Prod.snd) n
        = op d (m₂.map Prod.fst) (m₂.map Prod.snd) n)
    {l₁ l₂ : List (Row × ℕ)} (hperm : l₁.Perm l₂) (F : Row × ℕ → Row) :
    op d (l₁.map F) (l₁.map Prod.snd) n
      = op d (l₂.map F) (l₂.map Prod.snd) n := by
  have h := hop (l₁.map (fun p => (F p, p.2))) (l₂.map (fun p => (F p, p.2)))
    (hperm.map _)
  simpa [List.map_map, Function.comp_def] using h

lemma unsorted_segment_sum_perm (dim n : ℕ) {m₁ m₂ : List (Row × ℕ)}
    (h : m₁.Perm m₂) :
    unsorted_segment_sum dim (m₁.map Prod.fst) (m₁.map Prod.snd) n
      = unsorted_segment_sum dim (m₂.map Prod.fst) (m₂.map Prod.snd) n := by
  unfold unsorted_segment_sum
  refine List.map_congr_left (fun i _ => ?_)
  rw [segmentRows_of_pairs, segmentRows_of_pairs]
  exact ((h.filter _).map _).foldl_eq'
    (fun x _ y _ z => radd_right_comm z x y) _

lemma unsorted_segment_mean_perm (dim n : ℕ) {m₁ m₂ : List (Row × ℕ)}
    (h : m₁.Perm m₂) :
    unsorted_segment_mean dim (m₁.map Prod.fst) (m₁.map Prod.snd) n
      = unsorted_segment_mean dim (m₂.map Prod.fst) (m₂.map Prod.snd) n := by
  unfold unsorted_segment_mean
  refine List.map_congr_left (fun i _ => ?_)
  simp only [segmentRows_of_pairs]
  have hp := (h.filter (fun p => p.2 == i)).map Prod.fst
  rw [hp.foldl_eq' (fun x _ y _ z => radd_right_comm z x y) _, hp.length_eq]

lemma unsorted_segment_sqrt_n_perm (sqrtN : ℕ → ℚ) (dim n : ℕ)
    {m₁ m₂ : List (Row × ℕ)} (h : m₁.Perm m₂) :
    unsorted_segment_sqrt_n sqrtN dim (m₁.map Prod.fst) (m₁.map Prod.snd) n
      = unsorted_segment_sqrt_n sqrtN dim (m₂.map Prod.fst)
          (m₂.map Prod.snd) n := by
  unfold unsorted_segment_sqrt_n
  refine List.map_congr_left (fun i _ => ?_)
  simp only [segmentRows_of_pairs]
  have hp := (h.filter (fun p => p.2 == i)).map Prod.fst
  rw [hp.foldl_eq' (fun x _ y _ z => radd_right_comm z x y) _, hp.length_eq]

lemma unsorted_segment_max_perm (dim n : ℕ) {m₁ m₂ : List (Row × ℕ)}
    (h : m₁.Perm m₂) :
    unsorted_segment_max dim (m₁.map Prod.fst) (m₁.map Prod.snd) n
      = unsorted_segment_max dim (m₂.map Prod.fst) (m₂.map Prod.snd) n := by
  unfold unsorted_segment_max
  refine List.map_congr_left (fun i _ => ?_)
  rw [segmentRows_of_pairs, segmentRows_of_pairs]
  exact ((h.filter _).map _).foldl_eq'
    (fun x _ y _ z => rmax_right_comm z x y) _

/-- Claim C5: the Graph Aggregator output is invariant under any
permutation of the node rows permuted identically with their `graph_idx`
tags — for every reduction choice accepted by the constructor, gated or
plain. -/
theorem c5_graph_aggregator_permutation_invariant (nt : Row → Row)
    (gt : Option (Row → Row)) (dim : ℕ) (gated : Bool) (sig : ℚ → ℚ)
    (sqrtN : ℕ → ℚ) (aggname : String) (A : GraphAggregator)
    (hA : GraphAggregator_init nt gt dim gated sig sqrtN aggname
      = Except.ok A)
    (l₁ l₂ : List (Row × ℕ)) (hperm : l₁.Perm l₂) (n : ℕ) :
    GraphAggregator_build A (l₁.map Prod.fst) (l₁.map Prod.snd) n
      = GraphAggregator_build A (l₂.map Prod.fst) (l₂.map Prod.snd) n := by
  have hop : ∀ (m₁ m₂ : List (Row × ℕ)), m₁.Perm m₂ →
      A.aggregation_op A.graph_state_dim (m₁.map Prod.fst)
        (m₁.map Prod.snd) n
      = A.aggregation_op A.graph_state_dim (m₂.map Prod.fst)
        (m₂.map Prod.snd) n := by
    unfold GraphAggregator_init AGGREGATION_TYPE at hA
    by_cases h1 : aggname = "sum"
    · simp only [h1, if_true, reduceIte, Except.ok.injEq] at hA
      subst hA
      exact fun m₁ m₂ hm => unsorted_segment_sum_perm _ _ hm
    by_cases h2 : aggname = "mean"
    · simp only [h1, h2, if_true, if_false, reduceIte, String.reduceEq,
        Except.ok.injEq] at hA
      subst hA
      exact fun m₁ m₂ hm => unsorted_segment_mean_perm _ _ hm
    by_cases h3 : aggname = "sqrt_n"
    · simp only [h1, h2, h3, if_true, if_false, reduceIte, String.reduceEq,
        Except.ok.injEq] at hA
      subst hA
      exact fun m₁ m₂ hm => unsorted_segment_sqrt_n_perm _ _ _ hm
    by_cases h4 : aggname = "max"
    · simp only [h1, h2, h3, h4, if_true, if_false, reduceIte,
        String.reduceEq, Except.ok.injEq] at hA
      subst hA
      exact fun m₁ m₂ hm => unsorted_segment_max_perm _ _ hm
    · simp [h1, h2, h3, h4] at hA
  cases hg : A.gated <;>
    simp only [GraphAggregator_build, hg, Bool.false_eq_true, if_false,
      if_true, List.map_map] <;>
    rw [aggregation_data_perm A.aggregation_op A.graph_state_dim n hop
      hperm _]

/-- Plain sum aggregator used by the C5 witness. -/
def c5aggregator : GraphAggregator :=
  { node_transform := id
    graph_transform := none
    graph_state_dim := 1
    gated := false
    sigmoid := id
    aggregation_type := "sum"
    aggregation_op := unsorted_segment_sum }

/-- Witness for C5: swapping the two nodes of graph 0 leaves the
aggregated output unchanged. -/
theorem c5_witness :
    GraphAggregator_init id none 1 false id (fun n => (n : ℚ)) "sum"
      = Except.ok c5aggregator
    ∧ ([([1], 0), ([2], 0)] : List (Row × ℕ)).Perm [([2], 0), ([1], 0)]
    ∧ GraphAggregator_build c5aggregator
        (([([1], 0), ([2], 0)] : List (Row × ℕ)).map Prod.fst)
        (([([1], 0), ([2], 0)] : List (Row × ℕ)).map Prod.snd) 1
      = GraphAggregator_build c5aggregator
        (([([2], 0), ([1], 0)] : List (Row × ℕ)).map Prod.fst)
        (([([2], 0), ([1], 0)] : List (Row × ℕ)).map Prod.snd) 1 :=
  ⟨rfl, List.Perm.swap ([2], 0) ([1], 0) [],
    c5_graph_aggregator_permutation_invariant id none 1 false id
      (fun n => (n : ℚ)) "sum" c5aggregator rfl _ _
      (List.Perm.swap ([2], 0) ([1], 0) []) 1⟩

/-- Tags for packed blocks, starting at tag `k`: each row of block `m`
(counting from `k`) is tagged `k + m`.  `blockTagsFrom 0 bs` is the
`graph_idx`/`block_idx` vector of the packed batch `bs.flatten`. -/
def blockTagsFrom (k : ℕ) : List Tensor → List ℕ
  | [] => []
  | b :: bs => List.replicate b.length k ++ blockTagsFrom (k + 1) bs

/-- Canonical `block_idx` of a packed list of blocks. -/
def blockTags (bs : List Tensor) : List ℕ := blockTagsFrom 0 bs

lemma blockTagsFrom_length : ∀ (bs : List Tensor) (k : ℕ),
    (blockTagsFrom k bs).length = bs.flatten.length := by
  intro bs
  induction bs with
  | nil => intro k; rfl
  | cons b t ih => intro k; simp [blockTagsFrom, ih]

lemma zip_replicate_right {α β : Type} : ∀ (l : List α) (a : β),
    l.zip (List.replicate l.length a) = l.map (fun x => (x, a)) := by
  intro l
  induction l with
  | nil => intro a; rfl
  | cons x t ih => intro a; simp [List.replicate_succ, ih]

lemma segmentRows_append (d₁ d₂ : Tensor) (i₁ i₂ : List ℕ)
    (h : d₁.length = i₁.length) (j : ℕ) :
    segmentRows (d₁ ++ d₂) (i₁ ++ i₂) j
      = segmentRows d₁ i₁ j ++ segmentRows d₂ i₂ j := by
  unfold segmentRows
  rw [List.zip_append h, List.filter_append, List.map_append]

lemma segmentRows_replicate (b : Tensor) (k j : ℕ) :
    segmentRows b (List.replicate b.length k) j
      = if k = j then b else [] := by
  unfold segmentRows
  rw [zip_replicate_right, List.filter_map]
  by_cases h : k = j
  · subst h
    simp [Function.comp_def, List.map_map]
  · simp [Function.comp_def, h]

lemma segmentRows_pack : ∀ (bs : List Tensor) (k j : ℕ),
    segmentRows bs.flatten (blockTagsFrom k bs) j
      = if k ≤ j then bs.getD (j - k) [] else [] := by
  intro bs
  induction bs with
  | nil =>
    intro k j
    simp [segmentRows, blockTagsFrom]
  | cons b bs ih =>
    intro k j
    show segmentRows (b ++ bs.flatten)
      (List.replicate b.length k ++ blockTagsFrom (k + 1) bs) j = _
    rw [segmentRows_append _ _ _ _ (by simp), segmentRows_replicate,
      ih (k + 1) j]
    by_cases h1 : k = j
    · subst h1
      simp [Nat.sub_self]
    · by_cases h2 : k ≤ j
      · have h3 : k + 1 ≤ j := by omega
        have h4 : j - k = (j - (k + 1)) + 1 := by omega
        simp only [h1, if_false, h2, if_true, h3, List.nil_append, h4,
          List.getD_cons_succ]
      · have h3 : ¬(k + 1 ≤ j) := by omega
        simp [h1, h2, h3]

lemma dynamicPartition_pack (bs : List Tensor) (j : ℕ) :
    dynamicPartition bs.flatten (blockTags bs) j = bs.getD j [] := by
  unfold dynamicPartition blockTags
  rw [segmentRows_pack bs 0 j]
  simp

lemma get_pairwise_similarity_shape (sqrt : ℚ → ℚ) (name : String)
    (sim : Tensor → Tensor → Tensor)
    (hsim : get_pairwise_similarity sqrt name = Except.ok sim)
    (x y : Tensor) :
    (sim x y).length = x.length
    ∧ ∀ p : ℕ, p < x.length → ((sim x y).getD p []).length = y.length := by
  unfold get_pairwise_similarity at hsim
  split_ifs at hsim with h1 h2 h3
  · cases hsim
    refine ⟨by simp [pairwise_euclidean_similarity], fun p hp => ?_⟩
    unfold pairwise_euclidean_similarity
    rw [getD_map _ _ _ hp [] []]
    simp
  · cases hsim
    refine ⟨by simp [pairwise_dot_product_similarity], fun p hp => ?_⟩
    unfold pairwise_dot_product_similarity
    rw [getD_map _ _ _ hp [] []]
    simp
  · cases hsim
    refine ⟨by simp [pairwise_cosine_similarity,
      pairwise_dot_product_similarity], fun p hp => ?_⟩
    unfold pairwise_cosine_similarity pairwise_dot_product_similarity
    rw [getD_map _ _ _ (by simpa using hp) [] []]
    simp

lemma radd_getD (u v : Row) (d : ℕ) (hu : d < u.length)
    (hv : d < v.length) :
    (radd u v).getD d 0 = u.getD d 0 + v.getD d 0 :=
  getD_zipWith (· + ·) u v d hu hv 0 0 0

lemma map_getD_range (l : Row) (D : ℕ) (h : l.length = D) :
    (List.range D).map (fun d => l.getD d 0) = l := by
  subst h
  apply List.ext_getElem
  · simp
  · intro i h1 h2
    simp only [List.getElem_map, List.getElem_range,
      List.getD_eq_getElem?_getD, List.getElem?_eq_getElem h2]
    rfl

lemma foldl_radd_scale (D : ℕ) : ∀ (rows : Tensor) (w acc : Row),
    (∀ r ∈ rows, r.length = D) → w.length = rows.length →
    acc.length = D →
    (List.zipWith (fun c r => r.map (fun v => c * v)) w rows).foldl radd acc
      = (List.range D).map (fun d => acc.getD d 0
          + ((List.range rows.length).map (fun q =>
              w.getD q 0 * ((rows.getD q []).getD d 0))).sum) := by
  intro rows
  induction rows with
  | nil =>
    intro w acc _ _ hacc
    simp only [List.zipWith_nil_right, List.foldl_nil, List.length_nil,
      List.range_zero, List.map_nil, List.sum_nil, add_zero]
    exact (map_getD_range acc D hacc).symm
  | cons r rs ih =>
    intro w acc hD hw hacc
    cases w with
    | nil => simp at hw
    | cons c cs =>
      have hr : r.length = D := hD r (List.mem_cons_self r rs)
      have hrs : ∀ t ∈ rs, t.length = D :=
        fun t ht => hD t (List.mem_cons_of_mem r ht)
      have hacc' : (radd acc (r.map (fun v => c * v))).length = D := by
        simp [radd, hacc, hr]
      rw [List.zipWith_cons_cons, List.foldl_cons,
        ih cs (radd acc (r.map (fun v => c * v))) hrs (by simpa using hw)
          hacc']
      refine List.map_congr_left (fun d hd => ?_)
      have hd' : d < D := by simpa using hd
      rw [radd_getD acc (r.map (fun v => c * v)) d
          (by rw [hacc]; exact hd') (by simpa [hr] using hd'),
        getD_map _ _ _ (by rw [hr]; exact hd') 0 0]
      simp only [List.length_cons, List.range_succ_eq_map, List.map_cons,
        List.map_map, List.sum_cons, List.getD_cons_zero,
        List.getD_cons_succ, Function.comp_def]
      ring

lemma weightedSumRows_formula (w : Row) (y : Tensor) (D : ℕ)
    (hD : ∀ r ∈ y, r.length = D) (hw : w.length = y.length)
    (hy : y ≠ []) :
    weightedSumRows w y = (List.range D).map (fun d =>
      ((List.range y.length).map (fun q =>
        w.getD q 0 * ((y.getD q []).getD d 0))).sum) := by
  unfold weightedSumRows
  have hhead : (y.headD []).length = D := by
    cases y with
    | nil => simp at hy
    | cons a l => exact hD a (List.mem_cons_self a l)
  rw [show rzeros (y.headD []).length = rzeros D by rw [hhead]]
  rw [foldl_radd_scale D y w (rzeros D) hD hw (by simp [rzeros])]
  refine List.map_congr_left (fun d hd => ?_)
  have hd' : d < D := by simpa using hd
  have : (rzeros D).getD d 0 = 0 := by
    simp [rzeros, List.getD_eq_getElem?_getD, List.getElem?_replicate, hd']
  rw [this, zero_add]

lemma softmax_getD (e : ℚ → ℚ) (v : Row) (q : ℕ) (hq : q < v.length) :
    (softmax e v).getD q 0 = e (v.getD q 0) / (v.map e).sum := by
  unfold softmax
  rw [getD_map _ _ _ hq 0 0]

lemma softmax_length (e : ℚ → ℚ) (v : Row) :
    (softmax e v).length = v.length := by
  simp [softmax]

/-- Claim C3: for attending pairs of blocks (2i, 2i+1) of any sizes N and
M, cross attention computes the x-side weights as a softmax of the
similarity matrix over the q axis, `attention_x_p = Σ_q a_{p→q} · y_q`,
the batched output is the in-order concatenation of the per-pair
attention blocks (mirroring the input row order and shape, with the
x-block length N and y-block length M), and the matching layer feeds
`x_p − attention_x_p` into the node update. -/
theorem c3_cross_attention_softmax_weighted_residual (e sqrt : ℚ → ℚ)
    (simname : String) (sim : Tensor → Tensor → Tensor)
    (hsim : get_pairwise_similarity sqrt simname = Except.ok sim)
    (bs : List Tensor) (hev : bs.length % 2 = 0) :
    batch_block_pair_attention e sqrt bs.flatten (blockTags bs) bs.length
        simname
      = Except.ok ((List.range (bs.length / 2)).map (fun k =>
          (compute_cross_attention e (bs.getD (2 * k) [])
            (bs.getD (2 * k + 1) []) sim).1
          ++ (compute_cross_attention e (bs.getD (2 * k) [])
            (bs.getD (2 * k + 1) []) sim).2)).flatten
    ∧ (∀ x y : Tensor,
        (compute_cross_attention e x y sim).1.length = x.length
        ∧ (compute_cross_attention e x y sim).2.length = y.length)
    ∧ (∀ (x y : Tensor) (D : ℕ), (∀ r ∈ y, r.length = D) → y ≠ [] →
        ∀ p, p < x.length →
        (compute_cross_attention e x y sim).1.getD p []
          = (List.range D).map (fun d =>
              ((List.range y.length).map (fun q =>
                e (((sim x y).getD p []).getD q 0)
                  / (((sim x y).getD p []).map e).sum
                  * ((y.getD q []).getD d 0))).sum))
    ∧ (∀ (L : GraphPropLayer) (ns : Tensor) (fi ti gi : List ℕ) (ng : ℕ)
        (ef nf : Option Tensor) (att : Tensor),
        batch_block_pair_attention e sqrt ns gi ng simname
          = Except.ok att →
        GraphPropMatchingLayer_build L e sqrt ns fi ti gi ng simname ef nf
          = compute_node_update L ns
              [compute_aggregated_messages L ns fi ti ef,
               List.zipWith rsub ns att] nf) := by
  refine ⟨?_, ?_, ?_, ?_⟩
  · unfold batch_block_pair_attention
    rw [if_neg (by omega)]
    simp only [hsim]
    refine congrArg Except.ok
      (congrArg List.flatten (List.map_congr_left (fun k hk => ?_)))
    have hk' : k < bs.length / 2 := by simpa using hk
    have h2k : 2 * k < bs.length := by omega
    have h2k1 : 2 * k + 1 < bs.length := by omega
    rw [getD_range_map _ _ _ h2k, getD_range_map _ _ _ h2k1,
      dynamicPartition_pack, dynamicPartition_pack]
  · intro x y
    have hlen := (get_pairwise_similarity_shape sqrt simname sim hsim x y).1
    have hfst : (compute_cross_attention e x y sim).1
        = ((sim x y).map (softmax e)).map (fun w => weightedSumRows w y) :=
      rfl
    have hsnd : (compute_cross_attention e x y sim).2
        = ((List.range y.length).map (fun q =>
            softmax e ((sim x y).map (fun row => row.getD q 0)))).map
          (fun w => weightedSumRows w x) := rfl
    rw [hfst, hsnd]
    simp [hlen]
  · intro x y D hD hy p hp
    have hsh := get_pairwise_similarity_shape sqrt simname sim hsim x y
    have hrowlen : ((sim x y).getD p []).length = y.length := hsh.2 p hp
    have hfst : (compute_cross_attention e x y sim).1
        = ((sim x y).map (softmax e)).map (fun w => weightedSumRows w y) :=
      rfl
    rw [hfst, List.map_map,
      getD_map _ _ _ (by rw [hsh.1]; exact hp) [] []]
    simp only [Function.comp_apply]
    rw [weightedSumRows_formula (softmax e ((sim x y).getD p [])) y D hD
      (by rw [softmax_length, hrowlen]) hy]
    refine List.map_congr_left (fun d hd => ?_)
    refine congrArg List.sum (List.map_congr_left (fun q hq => ?_))
    have hq' : q < ((sim x y).getD p []).length := by
      rw [hrowlen]
      simpa using hq
    rw [softmax_getD e _ q hq']
  · intro L ns fi ti gi ng ef nf att hatt
    unfold GraphPropMatchingLayer_build
    simp only [hatt]

/-- Blocks used by the C3 witness: an attending pair of sizes N = 3 and
M = 5. -/
def c3blocks : List Tensor :=
  [[[1, 0], [0, 1], [1, 1]], [[2, 0], [0, 2], [1, 1], [0, 0], [1, 2]]]

/-- Witness for C3 on the size-3/size-5 pair with dot-product
similarity. -/
theorem c3_witness :
    get_pairwise_similarity id "dotproduct"
      = Except.ok pairwise_dot_product_similarity
    ∧ c3blocks.length % 2 = 0
    ∧ batch_block_pair_attention (fun _ => 1) id c3blocks.flatten
        (blockTags c3blocks) c3blocks.length "dotproduct"
      = Except.ok ((List.range (c3blocks.length / 2)).map (fun k =>
          (compute_cross_attention (fun _ => 1) (c3blocks.getD (2 * k) [])
            (c3blocks.getD (2 * k + 1) [])
            pairwise_dot_product_similarity).1
          ++ (compute_cross_attention (fun _ => 1)
            (c3blocks.getD (2 * k) []) (c3blocks.getD (2 * k + 1) [])
            pairwise_dot_product_similarity).2)).flatten
    ∧ (compute_cross_attention (fun _ => 1) (c3blocks.getD 0 [])
        (c3blocks.getD 1 []) pairwise_dot_product_similarity).1.length
        = 3 :=
  ⟨rfl, by decide,
    (c3_cross_attention_softmax_weighted_residual (fun _ => 1) id
      "dotproduct" pairwise_dot_product_similarity rfl c3blocks
      (by decide)).1,
    ((c3_cross_attention_softmax_weighted_residual (fun _ => 1) id
      "dotproduct" pairwise_dot_product_similarity rfl c3blocks
      (by decide)).2.1 (c3blocks.getD 0 []) (c3blocks.getD 1 [])).1.trans
      (by decide)⟩

end GMN
